import Mathlib

/-!
Shallow embedding of the User Registry Service of
`src/container-express-app/src/index.js` (an Express.js app), together with
the port configuration of the second Express app in `src/unnamed/part_001`.

The service keeps a global in-memory array `users` and exposes three routes:
`GET /` (health check), `GET /users` (list), `POST /users` (register).
Request bodies are parsed JSON; the register handler reads `req.body.userId`,
a dynamically typed JSON value that may be absent. We model JSON values with
the inductive type `Json` (numbers are modelled as integers: no property here
needs fractional values, and NaN is not expressible in JSON). An absent field
(JavaScript `undefined`) is modelled by `Option.none`.

Equality in `users.includes(x)` is JavaScript SameValueZero: on JSON scalars
(null, booleans, numbers, strings) it coincides with structural equality,
which is what membership on `Json` uses below; on arrays and objects
SameValueZero is reference equality, and a freshly parsed request body is
never reference-equal to an already stored value, so structural membership
can hold where the program's `includes` would return false. Every theorem
below that quantifies over arrays or objects therefore carries a structural
non-membership hypothesis, under which the two semantics agree; theorems
about duplicate detection are stated for string identifiers, the type the
specification assigns to `userId`, where the two semantics always agree.
-/

namespace UserRegistry

/-- JSON values, as parsed by `body-parser` from the request body.
Numbers are modelled as integers. -/
inductive Json where
  | null : Json
  | bool (b : Bool) : Json
  | num (n : Int) : Json
  | str (s : String) : Json
  | arr (elems : List Json) : Json
  | obj (fields : List (String × Json)) : Json

mutual

/-- Structural decidable equality on `Json` (hand written: `deriving` does
not handle the nested inductive). On scalars this is exactly JavaScript
SameValueZero, the equality used by `Array.prototype.includes`. -/
def Json.decEq : (a b : Json) → Decidable (a = b)
  | .null, .null => isTrue rfl
  | .null, .bool _ => isFalse nofun
  | .null, .num _ => isFalse nofun
  | .null, .str _ => isFalse nofun
  | .null, .arr _ => isFalse nofun
  | .null, .obj _ => isFalse nofun
  | .bool _, .null => isFalse nofun
  | .bool a, .bool c =>
    if h : a = c then isTrue (by rw [h])
    else isFalse (by intro hh; injection hh; contradiction)
  | .bool _, .num _ => isFalse nofun
  | .bool _, .str _ => isFalse nofun
  | .bool _, .arr _ => isFalse nofun
  | .bool _, .obj _ => isFalse nofun
  | .num _, .null => isFalse nofun
  | .num _, .bool _ => isFalse nofun
  | .num a, .num c =>
    if h : a = c then isTrue (by rw [h])
    else isFalse (by intro hh; injection hh; contradiction)
  | .num _, .str _ => isFalse nofun
  | .num _, .arr _ => isFalse nofun
  | .num _, .obj _ => isFalse nofun
  | .str _, .null => isFalse nofun
  | .str _, .bool _ => isFalse nofun
  | .str _, .num _ => isFalse nofun
  | .str a, .str c =>
    if h : a = c then isTrue (by rw [h])
    else isFalse (by intro hh; injection hh; contradiction)
  | .str _, .arr _ => isFalse nofun
  | .str _, .obj _ => isFalse nofun
  | .arr _, .null => isFalse nofun
  | .arr _, .bool _ => isFalse nofun
  | .arr _, .num _ => isFalse nofun
  | .arr _, .str _ => isFalse nofun
  | .arr a, .arr c =>
    match Json.decEqList a c with
    | isTrue h => isTrue (by rw [h])
    | isFalse h => isFalse (by intro hh; injection hh; contradiction)
  | .arr _, .obj _ => isFalse nofun
  | .obj _, .null => isFalse nofun
  | .obj _, .bool _ => isFalse nofun
  | .obj _, .num _ => isFalse nofun
  | .obj _, .str _ => isFalse nofun
  | .obj _, .arr _ => isFalse nofun
  | .obj a, .obj c =>
    match Json.decEqFields a c with
    | isTrue h => isTrue (by rw [h])
    | isFalse h => isFalse (by intro hh; injection hh; contradiction)
termination_by structural a _ => a

/-- Structural decidable equality on lists of JSON values. -/
def Json.decEqList : (a b : List Json) → Decidable (a = b)
  | [], [] => isTrue rfl
  | [], _ :: _ => isFalse nofun
  | _ :: _, [] => isFalse nofun
  | x :: xs, y :: ys =>
    match Json.decEq x y, Json.decEqList xs ys with
    | isTrue h1, isTrue h2 => isTrue (by rw [h1, h2])
    | isFalse h1, _ => isFalse (by intro hh; injection hh; contradiction)
    | _, isFalse h2 => isFalse (by intro hh; injection hh; contradiction)
termination_by structural a _ => a

/-- Structural decidable equality on JSON object field lists. -/
def Json.decEqFields : (a b : List (String × Json)) → Decidable (a = b)
  | [], [] => isTrue rfl
  | [], _ :: _ => isFalse nofun
  | _ :: _, [] => isFalse nofun
  | (k, v) :: xs, (k2, v2) :: ys =>
    if h0 : k = k2 then
      match Json.decEq v v2, Json.decEqFields xs ys with
      | isTrue h1, isTrue h2 => isTrue (by rw [h0, h1, h2])
      | isFalse h1, _ =>
        isFalse (by intro hh; injection hh with hp _; injection hp; contradiction)
      | _, isFalse h2 => isFalse (by intro hh; injection hh; contradiction)
    else
      isFalse (by intro hh; injection hh with hp _; injection hp; contradiction)
termination_by structural a _ => a

end

instance : DecidableEq Json := Json.decEq

/-- JavaScript truthiness of a JSON value: the test `!newUserId` in the
source is `jsTruthy v = false`. `null`, `false`, `0` and `""` are falsy;
every array and object is truthy. -/
def jsTruthy : Json → Bool
  | .null => false
  | .bool b => b
  | .num n => n != 0
  | .str s => s != ""
  | .arr _ => true
  | .obj _ => true

/-- Truthiness of a possibly absent field: JavaScript `undefined`
(modelled as `none`) is falsy. -/
def jsTruthyOpt : Option Json → Bool
  | none => false
  | some v => jsTruthy v

/-- An HTTP response: either `res.status(s).send(text)` / `res.send(text)`
(status 200 when not set explicitly) or `res.json(body)` (status 200). -/
inductive Resp where
  | text (status : Nat) (body : String) : Resp
  | json (status : Nat) (body : Json) : Resp
deriving DecidableEq

/-- The HTTP status code of a response. -/
def Resp.status : Resp → Nat
  | .text s _ => s
  | .json s _ => s

/-- Handler of `GET /`: `res.send('Hello, World!')` (status 200; the store
is not touched). The second component records the store after the call. -/
def getRoot (users : List Json) : Resp × List Json :=
  (.text 200 "Hello, World!", users)

/-- Handler of `GET /users`: `res.json({ users })` (status 200; the store
is not touched). -/
def getUsers (users : List Json) : Resp × List Json :=
  (.json 200 (.obj [("users", .arr users)]), users)

/-- Handler of `POST /users`, from the source:
```
const newUserId = req.body.userId;
if (!newUserId) return res.status(400).send('Missing user Id');
if (users.includes(newUserId)) return res.status(400).send('User already exists');
users.push(newUserId);
return res.status(201).send('User registered successfully.');
```
`newUserId` is `none` when the parsed body has no `userId` field
(JavaScript `undefined`, which is falsy). -/
def postUsers (users : List Json) (newUserId : Option Json) : Resp × List Json :=
  if jsTruthyOpt newUserId = false then
    (.text 400 "Missing user Id", users)
  else
    match newUserId with
    | none => (.text 400 "Missing user Id", users)
    | some v =>
      if v ∈ users then
        (.text 400 "User already exists", users)
      else
        (.text 201 "User registered successfully.", users ++ [v])

/-- One client-visible operation of the service. Per the specification's
external interface, the registration input is `{"userId": "<string>"}`;
`register none` is a body without a `userId` field. -/
inductive Op where
  | health : Op
  | list : Op
  | register (userId : Option String) : Op
deriving DecidableEq

/-- Dispatch of one request to its route handler, returning the response
and the store after the call. -/
def step (users : List Json) : Op → Resp × List Json
  | .health => getRoot users
  | .list => getUsers users
  | .register u => postUsers users (u.map .str)

/-- The store after serving a sequence of requests, starting from the
empty store the process is initialised with (`const users = [];`). -/
def runOps (ops : List Op) : List Json :=
  ops.foldl (fun users op => (step users op).2) []

/-- Serving `n` registration requests with the same body in sequence,
collecting the list of responses and the final store. Express's handler is
synchronous, so Node's event loop runs each invocation to completion before
the next starts: `n` concurrent requests are served in some sequential
order, and this definition captures every such order (the requests are
identical, so the order is immaterial). -/
def registerSeq (users : List Json) (body : Option Json) : Nat → List Resp × List Json
  | 0 => ([], users)
  | n + 1 =>
    let (r, users') := postUsers users body
    let (rs, users'') := registerSeq users' body n
    (r :: rs, users'')

/-- From `src/container-express-app/src/index.js` line 5: `const PORT = 3000;`.
The port is a hardcoded constant; the environment is never consulted. -/
def PORT : Nat := 3000

namespace Part001

/-- From `src/unnamed/part_001` line 4: `const port = process.env.PORT`.
The argument is the value of the `PORT` environment variable (`none` when
the variable is unset, in which case `port` is `undefined`); there is no
fallback. -/
def port (envPORT : Option String) : Option String :=
  envPORT

end Part001

/-- Modelled from the spec: the configuration policy the specification
claims, for a port-resolution function — the port is taken from the
environment variable when it is set, and a hardcoded fallback is used when
it is unset. Stated as a predicate so the claim can be compared with the
resolution the source actually performs. -/
def portFromEnvWithFallback (resolve : Option String → Option String) : Prop :=
  (∃ fallback : String, resolve none = some fallback) ∧
    ∀ v : String, resolve (some v) = some v

/-! Helper lemmas about the handlers, shared by the claim theorems. -/

/-- A non-empty string is truthy. -/
lemma jsTruthy_str_of_ne (s : String) (h : s ≠ "") : jsTruthy (.str s) = true := by
  simp [jsTruthy, bne_iff_ne, h]

/-- A falsy (or absent) `userId` is rejected with the missing-id response
and the store is unchanged. -/
lemma postUsers_falsy (users : List Json) (b : Option Json)
    (h : jsTruthyOpt b = false) :
    postUsers users b = (.text 400 "Missing user Id", users) := by
  simp [postUsers, h]

/-- A truthy `userId` already in the store is rejected with the duplicate
response and the store is unchanged. -/
lemma postUsers_dup (users : List Json) (v : Json)
    (hT : jsTruthy v = true) (hM : v ∈ users) :
    postUsers users (some v) = (.text 400 "User already exists", users) := by
  simp [postUsers, jsTruthyOpt, hT, hM]

/-- A truthy `userId` not in the store is appended and acknowledged
with status 201. -/
lemma postUsers_fresh (users : List Json) (v : Json)
    (hT : jsTruthy v = true) (hM : v ∉ users) :
    postUsers users (some v) =
      (.text 201 "User registered successfully.", users ++ [v]) := by
  simp [postUsers, jsTruthyOpt, hT, hM]

/-- Every request leaves the store unchanged or appends a single value
that was not present before. -/
lemma postUsers_store (users : List Json) (b : Option Json) :
    (postUsers users b).2 = users ∨
      ∃ v, v ∉ users ∧ (postUsers users b).2 = users ++ [v] := by
  cases b with
  | none => exact Or.inl (by simp [postUsers, jsTruthyOpt])
  | some v =>
    cases hT : jsTruthy v with
    | false => exact Or.inl (by simp [postUsers, jsTruthyOpt, hT])
    | true =>
      by_cases hM : v ∈ users
      · exact Or.inl (by rw [postUsers_dup users v hT hM])
      · exact Or.inr ⟨v, hM, by rw [postUsers_fresh users v hT hM]⟩

/-- Every operation leaves the store unchanged or appends a single value
that was not present before. -/
lemma step_store (users : List Json) (op : Op) :
    (step users op).2 = users ∨
      ∃ v, v ∉ users ∧ (step users op).2 = users ++ [v] := by
  cases op with
  | health => exact Or.inl rfl
  | list => exact Or.inl rfl
  | register u => exact postUsers_store users (u.map .str)

/-- Serving any sequence of requests preserves freedom from duplicates. -/
lemma foldl_step_nodup (ops : List Op) :
    ∀ users : List Json, users.Nodup →
      (ops.foldl (fun u op => (step u op).2) users).Nodup := by
  induction ops with
  | nil => intro users h; exact h
  | cons op rest ih =>
    intro users h
    rw [List.foldl_cons]
    apply ih
    rcases step_store users op with h1 | ⟨v, hv, h1⟩
    · rw [h1]; exact h
    · rw [h1, List.nodup_append]
      exact ⟨h, List.nodup_singleton v, by simpa using hv⟩

/-- Serving one more request extends the store by zero or one entry. -/
lemma runOps_snoc (ops : List Op) (op : Op) :
    runOps (ops ++ [op]) = (step (runOps ops) op).2 := by
  simp [runOps, List.foldl_append]

/-- A registration sequence whose identifier is already stored yields only
duplicate rejections and never changes the store. -/
lemma registerSeq_dup (users : List Json) (v : Json)
    (hT : jsTruthy v = true) (hM : v ∈ users) :
    ∀ n : Nat, registerSeq users (some v) n =
      (List.replicate n (.text 400 "User already exists"), users) := by
  intro n
  induction n with
  | zero => rfl
  | succ m ih =>
    simp [registerSeq, postUsers_dup users v hT hM, ih, List.replicate_succ]

/-! Claim theorems. -/

/-- C1: starting from the empty store, every sequence of operations
(health check, list users, register user) leaves the User Store free of
duplicate identifiers, and each further operation only ever appends at the
end — the previous store is an unchanged initial segment of the new one,
so entries are never reordered or removed. -/
theorem store_nodup_and_append_only (ops : List Op) :
    (runOps ops).Nodup ∧
      ∀ op : Op, ∃ tail : List Json, runOps (ops ++ [op]) = runOps ops ++ tail := by
  constructor
  · exact foldl_step_nodup ops [] List.nodup_nil
  · intro op
    rw [runOps_snoc ops op]
    rcases step_store (runOps ops) op with h1 | ⟨v, _, h1⟩
    · exact ⟨[], by rw [h1, List.append_nil]⟩
    · exact ⟨[v], h1⟩

/-- C2: registering a non-empty identifier that is already stored (exact
string match) yields status 400 with "User already exists" and leaves the
store unchanged; consequently registering a fresh non-empty identifier
twice in sequence yields 201 on the first call and the duplicate 400 on
the second, with the store unchanged by the second call. -/
theorem post_duplicate_rejected (users : List Json) (s : String) (h1 : s ≠ "") :
    (Json.str s ∈ users →
      postUsers users (some (.str s)) = (.text 400 "User already exists", users)) ∧
    (Json.str s ∉ users →
      (postUsers users (some (.str s))).1.status = 201 ∧
      postUsers (postUsers users (some (.str s))).2 (some (.str s)) =
        (.text 400 "User already exists", (postUsers users (some (.str s))).2)) := by
  have hT := jsTruthy_str_of_ne s h1
  constructor
  · intro hM
    exact postUsers_dup users (.str s) hT hM
  · intro hM
    have hp := postUsers_fresh users (.str s) hT hM
    refine ⟨by rw [hp]; rfl, ?_⟩
    rw [hp]
    exact postUsers_dup _ (.str s) hT (by simp)

/-- Witness for C2 at concrete inputs: the duplicate branch on the store
`["alice"]` and the 201 branch on the empty store. -/
theorem post_duplicate_rejected_witness :
    postUsers [Json.str "alice"] (some (.str "alice")) =
      (.text 400 "User already exists", [Json.str "alice"]) ∧
    (postUsers [] (some (.str "bob"))).1.status = 201 :=
  ⟨(post_duplicate_rejected [Json.str "alice"] "alice" (by decide)).1 (by decide),
   ((post_duplicate_rejected [] "bob" (by decide)).2 (by decide)).1⟩

/-- C3: a request body whose `userId` is missing or empty/falsy is
rejected with status 400 and "Missing user Id", and the store is
unchanged. -/
theorem post_missing_id_rejected (users : List Json) (b : Option Json)
    (h : jsTruthyOpt b = false) :
    postUsers users b = (.text 400 "Missing user Id", users) :=
  postUsers_falsy users b h

/-- Witness for C3 at a concrete input: a body without a `userId` field
against the store `["a"]`. -/
theorem post_missing_id_rejected_witness :
    jsTruthyOpt none = false ∧
    postUsers [Json.str "a"] none = (.text 400 "Missing user Id", [Json.str "a"]) :=
  ⟨rfl, post_missing_id_rejected [Json.str "a"] none rfl⟩

/-- C4: a truthy (non-empty) `userId` not already in the store is appended
at the end, the response is 201 with the success message, and the store
grows by exactly one entry with all prior entries unchanged and in the
same order. -/
theorem post_fresh_appends (users : List Json) (v : Json)
    (hT : jsTruthy v = true) (hM : v ∉ users) :
    postUsers users (some v) =
      (.text 201 "User registered successfully.", users ++ [v]) :=
  postUsers_fresh users v hT hM

/-- Witness for C4 at a concrete input: registering "b" on the store
`["a"]`. -/
theorem post_fresh_appends_witness :
    postUsers [Json.str "a"] (some (.str "b")) =
      (.text 201 "User registered successfully.", [Json.str "a", Json.str "b"]) :=
  post_fresh_appends [Json.str "a"] (.str "b") (by decide) (by decide)

/-- C5: for every non-empty string `s` not already registered, registering
`s` and then listing users yields a 200 JSON response whose `users` array
is exactly the new store, and that store contains `s` exactly once. -/
theorem register_then_read (users : List Json) (s : String)
    (h1 : s ≠ "") (h2 : Json.str s ∉ users) :
    (getUsers (postUsers users (some (.str s))).2).1 =
      .json 200 (.obj [("users", .arr (postUsers users (some (.str s))).2)]) ∧
    ((postUsers users (some (.str s))).2).count (Json.str s) = 1 := by
  have hp := postUsers_fresh users (.str s) (jsTruthy_str_of_ne s h1) h2
  refine ⟨rfl, ?_⟩
  rw [hp]
  simp [List.count_append, List.count_eq_zero.mpr h2]

/-- Witness for C5 at a concrete input: registering "s" on the store
`["a"]` and reading back. -/
theorem register_then_read_witness :
    (getUsers (postUsers [Json.str "a"] (some (.str "s"))).2).1 =
      .json 200 (.obj [("users", .arr (postUsers [Json.str "a"] (some (.str "s"))).2)]) ∧
    ((postUsers [Json.str "a"] (some (.str "s"))).2).count (Json.str "s") = 1 :=
  register_then_read [Json.str "a"] "s" (by decide) (by decide)

/-- C6: listing users returns status 200 with a JSON object whose `users`
field is exactly the ordered store, and leaves the store unchanged; on a
freshly started process (no operations served) it returns
`{"users": []}`, and a repeated read with no intervening write returns an
identical response. -/
theorem get_users_exact (users : List Json) :
    getUsers users = (.json 200 (.obj [("users", .arr users)]), users) ∧
    (getUsers (runOps [])).1 = .json 200 (.obj [("users", .arr [])]) ∧
    (getUsers (getUsers users).2).1 = (getUsers users).1 :=
  ⟨rfl, rfl, rfl⟩

/-- C7 counterexample: the port-resolution of `src/unnamed/part_001` does
not satisfy the claimed policy "environment variable with a hardcoded
fallback when unset": with the variable unset it yields no port at all
(`const port = process.env.PORT` is `undefined`). -/
theorem port_env_fallback_refuted : ¬ portFromEnvWithFallback Part001.port := by
  intro h
  rcases h.1 with ⟨fb, hfb⟩
  exact Option.noConfusion hfb

/-- C7 amended: in `container-express-app` the listening port is the
hardcoded constant 3000 and the environment is never consulted, while in
the unnamed Express app of `part_001` the port is exactly the value of the
`PORT` environment variable with no fallback (undefined when unset). -/
theorem port_configuration : PORT = 3000 ∧ ∀ env : Option String, Part001.port env = env :=
  ⟨rfl, fun _ => rfl⟩

/-- C8: serving `n ≥ 1` registration requests that carry the same fresh
non-empty identifier — the sequential order in which the single-threaded
event loop runs the `n` concurrent requests' handlers, each handler being
synchronous and therefore atomic — produces exactly one 201 response and
`n - 1` 400 responses, and the final store contains exactly one copy of
the identifier. -/
theorem concurrent_same_id_once (users : List Json) (s : String) (n : Nat)
    (h1 : s ≠ "") (h2 : Json.str s ∉ users) (h3 : 1 ≤ n) :
    ((registerSeq users (some (.str s)) n).1.countP (fun r => r.status == 201) = 1) ∧
    ((registerSeq users (some (.str s)) n).1.countP (fun r => r.status == 400) = n - 1) ∧
    ((registerSeq users (some (.str s)) n).2.count (Json.str s) = 1) := by
  obtain ⟨m, rfl⟩ : ∃ m, n = m + 1 := ⟨n - 1, by omega⟩
  have hT := jsTruthy_str_of_ne s h1
  have hp := postUsers_fresh users (.str s) hT h2
  have hrest := registerSeq_dup (users ++ [.str s]) (.str s) hT (by simp) m
  have hseq : registerSeq users (some (.str s)) (m + 1) =
      (Resp.text 201 "User registered successfully." ::
        List.replicate m (.text 400 "User already exists"), users ++ [.str s]) := by
    simp [registerSeq, hp, hrest]
  rw [hseq]
  refine ⟨?_, ?_, ?_⟩
  · rw [List.countP_cons, List.countP_replicate]
    simp [Resp.status]
  · rw [List.countP_cons, List.countP_replicate]
    simp [Resp.status]
  · simp [List.count_append, List.count_eq_zero.mpr h2]

/-- Witness for C8 at concrete inputs: three requests for "x" against the
empty store. -/
theorem concurrent_same_id_once_witness :
    ((registerSeq [] (some (.str "x")) 3).1.countP (fun r => r.status == 201) = 1) ∧
    ((registerSeq [] (some (.str "x")) 3).1.countP (fun r => r.status == 400) = 3 - 1) ∧
    ((registerSeq [] (some (.str "x")) 3).2.count (Json.str "x") = 1) :=
  concurrent_same_id_once [] "x" 3 (by decide) (by decide) (by decide)

/-- C9: the health check returns the fixed response "Hello, World!" with
status 200 and leaves the User Store identical. -/
theorem health_check_fixed (users : List Json) :
    getRoot users = (.text 200 "Hello, World!", users) :=
  rfl

/-- C10: the register handler performs no type check on `userId`: the
missing-identifier 400 is returned exactly when the parsed `userId` field
is falsy (absent, null, empty string, 0, or false), and every truthy JSON
value of any type that is not already present is appended to the store
as-is with a 201 response. -/
theorem post_no_type_check (users : List Json) (b : Option Json) :
    ((postUsers users b).1 = .text 400 "Missing user Id" ↔ jsTruthyOpt b = false) ∧
    (∀ v : Json, b = some v → jsTruthy v = true → v ∉ users →
      postUsers users b =
        (.text 201 "User registered successfully.", users ++ [v])) := by
  constructor
  · cases b with
    | none => simp [postUsers, jsTruthyOpt]
    | some v =>
      cases hT : jsTruthy v with
      | false => simp [postUsers, jsTruthyOpt, hT]
      | true =>
        by_cases hM : v ∈ users
        · rw [postUsers_dup users v hT hM]
          simp [jsTruthyOpt, hT]
        · rw [postUsers_fresh users v hT hM]
          simp [jsTruthyOpt, hT]
  · intro v hv hT hM
    subst hv
    exact postUsers_fresh users v hT hM

/-- Witness for C10 at concrete inputs: truthy non-string values (an empty
array, the number 5) are accepted and appended; the falsy number 0 is
rejected as missing. -/
theorem post_no_type_check_witness :
    (postUsers [] (some (.arr [])) =
      (.text 201 "User registered successfully.", [Json.arr []])) ∧
    (postUsers [Json.arr []] (some (.num 5)) =
      (.text 201 "User registered successfully.", [Json.arr [], Json.num 5])) ∧
    ((postUsers [] (some (.num 0))).1 = .text 400 "Missing user Id") :=
  ⟨(post_no_type_check [] (some (.arr []))).2 (.arr []) rfl (by decide) (by decide),
   (post_no_type_check [Json.arr []] (some (.num 5))).2 (.num 5) rfl (by decide) (by decide),
   (post_no_type_check [] (some (.num 0))).1.mpr (by decide)⟩

end UserRegistry
